import Mathlib

/-!
# Verification of the VoIP channel registry / orchestration core

Shallow embedding of `audio/voip/voip_core.h` (class `VoipCore`).

The repository provides only the header: the declarations, member layout,
return types and the documentation comments are taken from
`src/audio/voip/voip_core.h`; the bodies of the orchestration methods are
not in the repository, so they are modelled from the specification
(`spec.md`, sections 4.1 to 4.4), as marked on each definition.
-/

namespace VoipCore

/-- `ChannelId` is an `int` handle (`api/voip`); ids are allocated from
`next_channel_id_` starting at 0, so they are modelled as `Nat`. -/
abbrev ChannelId := Nat

/-- Modelled from the spec: the per-channel state tracked through the
orchestrator (section 4.3: independent `sending` and `playing` boolean axes,
both defaulting to off at creation) together with the channel-owned data the
dispatch operations of section 4.4 forward into (codec configuration, DTMF
registration, packet and statistics counters). The transport sink and the
optional local ssrc are the `CreateChannel` arguments of `voip_core.h`
lines 74-76. Packet counters stand in for the external ingress pipeline. -/
structure ChannelState where
  transport : Nat
  local_ssrc : Option Nat
  sending : Bool := false
  playing : Bool := false
  rtp_received : Nat := 0
  rtcp_received : Nat := 0
  send_codec : Option (Nat × Nat) := none
  receive_codecs : List (Nat × Nat) := []
  telephone_event : Option (Nat × Nat) := none
  dtmf_sent : Nat := 0
  ingress_stats : Nat := 0
deriving DecidableEq, Repr

/-- The orchestrator state: `next_channel_id_`, `channels_` and
`initialized_` are the lock-guarded members of `voip_core.h` lines 154-165;
`audio_transport_senders` models the set of actively sending channels last
pushed into `audio_transport_` (`AudioTransportImpl`, line 145) by
`UpdateAudioTransportWithSenders`; `init_attempts` counts the underlying
hardware (ADM) initialization attempts made so far, so that the lazy
initialization protocol of spec section 4.2 can be stated. -/
structure Core where
  next_channel_id : Nat := 0
  channels : List (ChannelId × ChannelState) := []
  initialized : Bool := false
  init_attempts : Nat := 0
  audio_transport_senders : List ChannelId := []
deriving DecidableEq, Repr

/-- The freshly constructed orchestrator: empty registry, id counter at 0,
not initialized (`voip_core.h` lines 157 and 165 give these initializers). -/
def initialCore : Core := {}

/-- Look an id up in the registry list (`channels_` is an
`unordered_map<ChannelId, rtc::scoped_refptr<AudioChannel>>`; the list keeps
the first binding for a key, which is the only one in reachable states). -/
def findChannel (id : ChannelId) : List (ChannelId × ChannelState) → Option ChannelState
  | [] => none
  | p :: rest => if p.1 = id then some p.2 else findChannel id rest

/-- Remove every binding of `id` from the registry list (the `erase` of the
map performed by `ReleaseChannel`). -/
def removeChannel (id : ChannelId) : List (ChannelId × ChannelState) → List (ChannelId × ChannelState)
  | [] => []
  | p :: rest => if p.1 = id then removeChannel id rest else p :: removeChannel id rest

/-- Apply `f` to the channel bound to `id`, leaving the registry unchanged
when `id` is absent (dispatch through `GetChannel`, spec section 4.4). -/
def mapChannel (id : ChannelId) (f : ChannelState → ChannelState)
    (l : List (ChannelId × ChannelState)) : List (ChannelId × ChannelState) :=
  l.map (fun p => if p.1 = id then (p.1, f p.2) else p)

/-- The ids of all channels currently in the sending state: the set
`UpdateAudioTransportWithSenders` recomputes from scratch (spec section 4.3,
rebuild policy; `voip_core.h` lines 124-128). -/
def activeSenders (l : List (ChannelId × ChannelState)) : List ChannelId :=
  (l.filter (fun p => p.2.sending)).map (fun p => p.1)

/-- `GetChannel` (`voip_core.h` lines 120-122): fetches the `AudioChannel`
assigned to the given id; returns `none` (nullptr) if not found. -/
def GetChannel (id : ChannelId) (s : Core) : Option ChannelState :=
  findChannel id s.channels

/-- Modelled from the spec: `InitializeIfNeeded` (`voip_core.h` lines
110-118, body absent; spec section 4.2 `ensure_initialized`). Under lock, if
already initialized return true immediately with no new hardware attempt;
otherwise attempt to initialize the ADM — the outcome of the k-th attempt is
given by the environment oracle `o k` — recording `initialized := true`
exactly on success, so a failed attempt leaves the flag false and retryable. -/
def InitializeIfNeeded (o : Nat → Bool) (s : Core) : Bool × Core :=
  if s.initialized then (true, s)
  else if o s.init_attempts then
    (true, { s with init_attempts := s.init_attempts + 1, initialized := true })
  else
    (false, { s with init_attempts := s.init_attempts + 1 })

/-- Modelled from the spec: `UpdateAudioTransportWithSenders`
(`voip_core.h` lines 124-128, body absent): pushes into the audio transport
adapter the set of actively sending channels, recomputed from the registry
from scratch rather than incrementally patched (spec section 4.3). -/
def UpdateAudioTransportWithSenders (s : Core) : Core :=
  { s with audio_transport_senders := activeSenders s.channels }

/-- Modelled from the spec: `CreateChannel` (`voip_core.h` lines 74-76, body
absent; spec section 4.1 `create`): allocates the fresh id
`next_channel_id_`, increments the counter, constructs an `AudioChannel`
bound to the supplied transport and optional ssrc with both axes off, and
inserts it; returns the id. -/
def CreateChannel (transport : Nat) (local_ssrc : Option Nat) (s : Core) :
    Option ChannelId × Core :=
  let id := s.next_channel_id
  (some id,
   { s with
      next_channel_id := id + 1,
      channels := (id, { transport := transport, local_ssrc := local_ssrc }) :: s.channels })

/-- Modelled from the spec: `ReleaseChannel` (`voip_core.h` line 77, body
absent; spec sections 4.1 and 3): removes the mapping (a no-op when the id
is unknown) and rebuilds and pushes the active-senders set, which is rebuilt
whenever a channel starts or stops sending or is released. Returns nothing
(`void`). -/
def ReleaseChannel (id : ChannelId) (s : Core) : Core :=
  UpdateAudioTransportWithSenders { s with channels := removeChannel id s.channels }

/-- Modelled from the spec: `StartSend` (`voip_core.h` line 78, body absent;
spec section 4.3): unknown id fails with no side effect; otherwise
`ensure_initialized` must succeed first — on failure the call returns false
and the channel state is unchanged; on success the sending axis is marked on
and the rebuilt active-senders set is pushed. -/
def StartSend (o : Nat → Bool) (id : ChannelId) (s : Core) : Bool × Core :=
  if (findChannel id s.channels).isSome then
    let r := InitializeIfNeeded o s
    if r.1 then
      (true, UpdateAudioTransportWithSenders
        { r.2 with channels := mapChannel id (fun ch => { ch with sending := true }) r.2.channels })
    else (false, r.2)
  else (false, s)

/-- Modelled from the spec: `StopSend` (`voip_core.h` line 79, body absent;
spec section 4.3): unknown id fails; otherwise the sending axis is marked
off (idempotently) and the rebuilt active-senders set is pushed. -/
def StopSend (id : ChannelId) (s : Core) : Bool × Core :=
  if (findChannel id s.channels).isSome then
    (true, UpdateAudioTransportWithSenders
      { s with channels := mapChannel id (fun ch => { ch with sending := false }) s.channels })
  else (false, s)

/-- Modelled from the spec: `StartPlayout` (`voip_core.h` line 80, body
absent; spec section 4.3): unknown id fails with no side effect; otherwise
`ensure_initialized` must succeed first, and on success only the playing
axis is marked on — playout does not touch the active-senders set. -/
def StartPlayout (o : Nat → Bool) (id : ChannelId) (s : Core) : Bool × Core :=
  if (findChannel id s.channels).isSome then
    let r := InitializeIfNeeded o s
    if r.1 then
      (true, { r.2 with channels := mapChannel id (fun ch => { ch with playing := true }) r.2.channels })
    else (false, r.2)
  else (false, s)

/-- Modelled from the spec: `StopPlayout` (`voip_core.h` line 81, body
absent; spec section 4.3): unknown id fails; otherwise the playing axis is
marked off (idempotently); the active-senders set is untouched. -/
def StopPlayout (id : ChannelId) (s : Core) : Bool × Core :=
  if (findChannel id s.channels).isSome then
    (true, { s with channels := mapChannel id (fun ch => { ch with playing := false }) s.channels })
  else (false, s)

/-- Modelled from the spec: `ReceivedRTPPacket` (`voip_core.h` lines 84-85,
body absent; spec section 4.4 routing): looks the channel up by id and
forwards the packet to its ingress; silently a no-op when absent. Returns
nothing (`void`). -/
def ReceivedRTPPacket (id : ChannelId) (_rtp_packet : List Nat) (s : Core) : Core :=
  { s with channels := mapChannel id (fun ch => { ch with rtp_received := ch.rtp_received + 1 }) s.channels }

/-- Modelled from the spec: `ReceivedRTCPPacket` (`voip_core.h` lines 86-87,
body absent; spec section 4.4 routing): as for RTP, keyed lookup and
forward; silently a no-op when absent. Returns nothing (`void`). -/
def ReceivedRTCPPacket (id : ChannelId) (_rtcp_packet : List Nat) (s : Core) : Core :=
  { s with channels := mapChannel id (fun ch => { ch with rtcp_received := ch.rtcp_received + 1 }) s.channels }

/-- Modelled from the spec: `SetSendCodec` (`voip_core.h` lines 90-92, body
absent; spec section 4.4): forwards the encoder configuration to the channel
when present; silently a no-op when absent. Returns nothing (`void`). -/
def SetSendCodec (id : ChannelId) (payload_type : Nat) (encoder_format : Nat) (s : Core) : Core :=
  { s with channels := mapChannel id (fun ch => { ch with send_codec := some (payload_type, encoder_format) }) s.channels }

/-- Modelled from the spec: `SetReceiveCodecs` (`voip_core.h` lines 93-95,
body absent; spec section 4.4): forwards the decoder specs to the channel
when present; silently a no-op when absent. Returns nothing (`void`). -/
def SetReceiveCodecs (id : ChannelId) (decoder_specs : List (Nat × Nat)) (s : Core) : Core :=
  { s with channels := mapChannel id (fun ch => { ch with receive_codecs := decoder_specs }) s.channels }

/-- Modelled from the spec: `RegisterTelephoneEventType` (`voip_core.h`
lines 98-100, body absent; spec section 4.4): forwards the DTMF event
registration to the channel when present; silently a no-op when absent.
Returns nothing (`void`). -/
def RegisterTelephoneEventType (id : ChannelId) (rtp_payload_type : Nat) (sample_rate_hz : Nat) (s : Core) : Core :=
  { s with channels := mapChannel id (fun ch => { ch with telephone_event := some (rtp_payload_type, sample_rate_hz) }) s.channels }

/-- Modelled from the spec: `SendDtmfEvent` (`voip_core.h` lines 101-103,
body absent; spec section 4.4): unknown id reports false; otherwise the
event is forwarded to the channel egress and the call reports true. -/
def SendDtmfEvent (id : ChannelId) (_dtmf_event : Nat) (_duration_ms : Nat) (s : Core) : Bool × Core :=
  if (findChannel id s.channels).isSome then
    (true, { s with channels := mapChannel id (fun ch => { ch with dtmf_sent := ch.dtmf_sent + 1 }) s.channels })
  else (false, s)

/-- Modelled from the spec: `GetIngressStatistics` (`voip_core.h` lines
106-107, body absent; spec section 4.4): a pure keyed query returning the
channel's ingress statistics, or `none` when the id is unknown. -/
def GetIngressStatistics (id : ChannelId) (s : Core) : Option Nat :=
  (findChannel id s.channels).map (fun ch => ch.ingress_stats)

/-! ## The capability facade

`VoipCore` implements `VoipEngine` by returning `*this` through every
capability accessor (`voip_core.h` lines 67-71): each view denotes the very
same underlying object. -/

/-- `Base()` (`voip_core.h` line 67): `return *this`. -/
def Base (s : Core) : Core := s

/-- `Network()` (`voip_core.h` line 68): `return *this`. -/
def Network (s : Core) : Core := s

/-- `Codec()` (`voip_core.h` line 69): `return *this`. -/
def Codec (s : Core) : Core := s

/-- `Dtmf()` (`voip_core.h` line 70): `return *this`. -/
def Dtmf (s : Core) : Core := s

/-- `Statistics()` (`voip_core.h` line 71): `return *this`. -/
def Statistics (s : Core) : Core := s

/-! ## Declared return types

The return types of the caller-facing operations, exactly as declared in
`voip_core.h` lines 74-107. An operation whose declared return type is
`void` hands no result or failure indication back to its caller. -/

/-- The caller-facing operations of `VoipCore` keyed by `ChannelId`
(`voip_core.h` lines 74-107). -/
inductive ApiOp where
  | createChannel
  | releaseChannel
  | startSend
  | stopSend
  | startPlayout
  | stopPlayout
  | receivedRTPPacket
  | receivedRTCPPacket
  | setSendCodec
  | setReceiveCodecs
  | registerTelephoneEventType
  | sendDtmfEvent
  | getIngressStatistics
deriving DecidableEq, Repr

/-- The declared return type of an operation (`voidKind` for `void`). -/
inductive RetKind where
  | voidKind
  | boolKind
  | optionalChannelId
  | optionalIngressStatistics
deriving DecidableEq, Repr

/-- The declared return type of each caller-facing operation, read off the
signatures in `voip_core.h` lines 74-107. -/
def returnKind : ApiOp → RetKind
  | .createChannel => .optionalChannelId
  | .releaseChannel => .voidKind
  | .startSend => .boolKind
  | .stopSend => .boolKind
  | .startPlayout => .boolKind
  | .stopPlayout => .boolKind
  | .receivedRTPPacket => .voidKind
  | .receivedRTCPPacket => .voidKind
  | .setSendCodec => .voidKind
  | .setReceiveCodecs => .voidKind
  | .registerTelephoneEventType => .voidKind
  | .sendDtmfEvent => .boolKind
  | .getIngressStatistics => .optionalIngressStatistics

/-- An operation reports an explicit result or not-found/failure indication
to its caller exactly when its declared return type is not `void`. -/
def reportsToCaller (op : ApiOp) : Prop :=
  returnKind op ≠ RetKind.voidKind

/-! ## Member declaration and destruction order

C++ destroys the non-static data members of a class in reverse declaration
order; `voip_core.h` lines 131-165 order the members precisely to obtain
the destruction sequence demanded by its comments (lines 136, 140, 144 and
151). -/

/-- The data members of `VoipCore` (`voip_core.h` lines 131-165). -/
inductive Member where
  | encoder_factory
  | decoder_factory
  | task_queue_factory
  | audio_processing
  | audio_mixer
  | audio_transport
  | audio_device_module
  | process_thread
  | lock
  | next_channel_id_member
  | channels_member
  | initialized_member
deriving DecidableEq, Repr

/-- Declaration order of the members, top to bottom as written in
`voip_core.h` lines 131-165. -/
def memberDeclOrder : List Member :=
  [ .encoder_factory, .decoder_factory, .task_queue_factory,
    .audio_processing, .audio_mixer, .audio_transport,
    .audio_device_module, .process_thread, .lock,
    .next_channel_id_member, .channels_member, .initialized_member ]

/-- C++ destruction order of the members: the reverse of declaration order
(later-declared members are destroyed first). -/
def destructionOrder : List Member :=
  memberDeclOrder.reverse

/-- Member `a` is destroyed strictly before member `b` (so `b` outlives
`a`) in the destructor of `VoipCore`. -/
def destroyedBefore (a b : Member) : Prop :=
  destructionOrder.indexOf a < destructionOrder.indexOf b

instance (a b : Member) : Decidable (destroyedBefore a b) := by
  unfold destroyedBefore; infer_instance

/-! ## Traces

A caller-visible operation sequence against one orchestrator, used to state
the lifetime invariants (fresh ids, active-senders exactness). -/

/-- One caller-facing call, with its arguments. -/
inductive VoipOp where
  | create (transport : Nat) (local_ssrc : Option Nat)
  | release (id : ChannelId)
  | startSend (id : ChannelId)
  | stopSend (id : ChannelId)
  | startPlayout (id : ChannelId)
  | stopPlayout (id : ChannelId)
  | receivedRTP (id : ChannelId) (packet : List Nat)
  | receivedRTCP (id : ChannelId) (packet : List Nat)
  | setSendCodec (id : ChannelId) (payload_type : Nat) (fmt : Nat)
  | setReceiveCodecs (id : ChannelId) (specs : List (Nat × Nat))
  | registerTelephoneEventType (id : ChannelId) (payload_type : Nat) (rate : Nat)
  | sendDtmfEvent (id : ChannelId) (event : Nat) (duration : Nat)
deriving DecidableEq, Repr

/-- The state reached by executing one call (discarding the returned
value); `o` is the hardware-initialization outcome oracle. -/
def step (o : Nat → Bool) (s : Core) : VoipOp → Core
  | .create t ssrc => (CreateChannel t ssrc s).2
  | .release id => ReleaseChannel id s
  | .startSend id => (StartSend o id s).2
  | .stopSend id => (StopSend id s).2
  | .startPlayout id => (StartPlayout o id s).2
  | .stopPlayout id => (StopPlayout id s).2
  | .receivedRTP id pkt => ReceivedRTPPacket id pkt s
  | .receivedRTCP id pkt => ReceivedRTCPPacket id pkt s
  | .setSendCodec id pt fmt => SetSendCodec id pt fmt s
  | .setReceiveCodecs id specs => SetReceiveCodecs id specs s
  | .registerTelephoneEventType id pt rate => RegisterTelephoneEventType id pt rate s
  | .sendDtmfEvent id ev dur => (SendDtmfEvent id ev dur s).2

/-- Execute a whole trace of calls from state `s`. -/
def run (o : Nat → Bool) (s : Core) : List VoipOp → Core
  | [] => s
  | op :: rest => run o (step o s op) rest

/-- The channel ids handed out by the `CreateChannel` calls of a trace, in
call order. -/
def issuedIds (o : Nat → Bool) (s : Core) : List VoipOp → List ChannelId
  | [] => []
  | .create t ssrc :: rest =>
      s.next_channel_id :: issuedIds o (step o s (.create t ssrc)) rest
  | op :: rest => issuedIds o (step o s op) rest

/-- The number of `CreateChannel` calls in a trace. -/
def numCreates : List VoipOp → Nat
  | [] => 0
  | .create _ _ :: rest => numCreates rest + 1
  | _ :: rest => numCreates rest

/-- The oracle of an environment whose hardware initialization always
succeeds. -/
def admAlwaysUp : Nat → Bool := fun _ => true

/-- The oracle of an environment whose hardware initialization always fails
(e.g. microphone permission denied while the app is in background mode). -/
def admAlwaysDown : Nat → Bool := fun _ => false

/-- The push protocol invariant: the set last pushed to the audio transport
adapter is exactly the active-senders set recomputed from the registry. -/
def sendersOk (s : Core) : Prop :=
  s.audio_transport_senders = activeSenders s.channels

/-! ## Registry list lemmas -/

theorem findChannel_removeChannel (id : ChannelId) (l : List (ChannelId × ChannelState)) :
    findChannel id (removeChannel id l) = none := by
  induction l with
  | nil => rfl
  | cons p rest ih =>
    by_cases h : p.1 = id
    · simpa [removeChannel, h] using ih
    · simpa [removeChannel, findChannel, h] using ih

theorem removeChannel_eq_self (id : ChannelId) (l : List (ChannelId × ChannelState))
    (h : findChannel id l = none) : removeChannel id l = l := by
  induction l with
  | nil => rfl
  | cons p rest ih =>
    by_cases hp : p.1 = id
    · simp [findChannel, hp] at h
    · rw [findChannel, if_neg hp] at h
      simp [removeChannel, hp, ih h]

theorem mapChannel_eq_self_of_none (id : ChannelId) (f : ChannelState → ChannelState)
    (l : List (ChannelId × ChannelState)) (h : findChannel id l = none) :
    mapChannel id f l = l := by
  induction l with
  | nil => rfl
  | cons p rest ih =>
    by_cases hp : p.1 = id
    · simp [findChannel, hp] at h
    · rw [findChannel, if_neg hp] at h
      simp [mapChannel, hp] at ih ⊢
      exact ih h

theorem findChannel_mapChannel (id : ChannelId) (f : ChannelState → ChannelState)
    (l : List (ChannelId × ChannelState)) :
    findChannel id (mapChannel id f l) = (findChannel id l).map f := by
  induction l with
  | nil => rfl
  | cons p rest ih =>
    by_cases hp : p.1 = id
    · simp [mapChannel, findChannel, hp]
    · simp [mapChannel, findChannel, hp] at ih ⊢
      exact ih

theorem mapChannel_mapChannel (id : ChannelId) (f g : ChannelState → ChannelState)
    (l : List (ChannelId × ChannelState)) :
    mapChannel id f (mapChannel id g l) = mapChannel id (fun ch => f (g ch)) l := by
  induction l with
  | nil => rfl
  | cons p rest ih =>
    by_cases hp : p.1 = id
    · simp [mapChannel, hp] at ih ⊢
      exact ih
    · simp [mapChannel, hp] at ih ⊢
      exact ih

theorem mapChannel_eq_self_of_fixed (id : ChannelId) (f : ChannelState → ChannelState)
    (l : List (ChannelId × ChannelState)) (h : ∀ p ∈ l, p.1 = id → f p.2 = p.2) :
    mapChannel id f l = l := by
  induction l with
  | nil => rfl
  | cons p rest ih =>
    have hrest : mapChannel id f rest = rest :=
      ih (fun q hq => h q (List.mem_cons_of_mem _ hq))
    by_cases hp : p.1 = id
    · have hfix := h p (List.mem_cons_self _ _) hp
      simp [mapChannel, hp, hfix] at hrest ⊢
      exact ⟨by rw [← hp], hrest⟩
    · simp [mapChannel, hp] at hrest ⊢
      exact hrest

/-! ## Active-senders lemmas -/

theorem activeSenders_cons (p : ChannelId × ChannelState) (l : List (ChannelId × ChannelState)) :
    activeSenders (p :: l) =
      if p.2.sending then p.1 :: activeSenders l else activeSenders l := by
  by_cases h : p.2.sending <;> simp [activeSenders, List.filter_cons, h]

theorem activeSenders_mapChannel (id : ChannelId) (f : ChannelState → ChannelState)
    (hf : ∀ ch, (f ch).sending = ch.sending) (l : List (ChannelId × ChannelState)) :
    activeSenders (mapChannel id f l) = activeSenders l := by
  induction l with
  | nil => rfl
  | cons p rest ih =>
    by_cases hp : p.1 = id
    · simp only [mapChannel, List.map_cons, if_pos hp] at ih ⊢
      rw [activeSenders_cons, activeSenders_cons]
      simp only [hf p.2]
      by_cases hs : p.2.sending <;> simp [hs, ih]
    · simp only [mapChannel, List.map_cons, if_neg hp] at ih ⊢
      rw [activeSenders_cons, activeSenders_cons]
      by_cases hs : p.2.sending <;> simp [hs, ih]

theorem findChannel_isSome_of_mem_activeSenders (id : ChannelId)
    (l : List (ChannelId × ChannelState)) (h : id ∈ activeSenders l) :
    (findChannel id l).isSome = true := by
  induction l with
  | nil => simp [activeSenders] at h
  | cons p rest ih =>
    rw [activeSenders_cons] at h
    by_cases hp : p.1 = id
    · simp [findChannel, hp]
    · rw [findChannel, if_neg hp]
      by_cases hs : p.2.sending
      · rw [if_pos hs] at h
        rcases List.mem_cons.mp h with h1 | h2
        · exact absurd h1.symm hp
        · exact ih h2
      · rw [if_neg hs] at h
        exact ih h

/-! ## Initialization lemmas -/

theorem InitializeIfNeeded_of_initialized (o : Nat → Bool) (s : Core)
    (h : s.initialized = true) : InitializeIfNeeded o s = (true, s) := by
  simp [InitializeIfNeeded, h]

theorem InitializeIfNeeded_channels (o : Nat → Bool) (s : Core) :
    (InitializeIfNeeded o s).2.channels = s.channels := by
  by_cases h1 : s.initialized <;> by_cases h2 : o s.init_attempts <;>
    simp [InitializeIfNeeded, h1, h2]

theorem InitializeIfNeeded_senders (o : Nat → Bool) (s : Core) :
    (InitializeIfNeeded o s).2.audio_transport_senders = s.audio_transport_senders := by
  by_cases h1 : s.initialized <;> by_cases h2 : o s.init_attempts <;>
    simp [InitializeIfNeeded, h1, h2]

theorem InitializeIfNeeded_next (o : Nat → Bool) (s : Core) :
    (InitializeIfNeeded o s).2.next_channel_id = s.next_channel_id := by
  by_cases h1 : s.initialized <;> by_cases h2 : o s.init_attempts <;>
    simp [InitializeIfNeeded, h1, h2]

theorem InitializeIfNeeded_initialized_of_true (o : Nat → Bool) (s : Core)
    (h : (InitializeIfNeeded o s).1 = true) :
    (InitializeIfNeeded o s).2.initialized = true := by
  by_cases h1 : s.initialized
  · simp [InitializeIfNeeded, h1]
  · by_cases h2 : o s.init_attempts
    · simp [InitializeIfNeeded, h1, h2]
    · simp [InitializeIfNeeded, h1, h2] at h

theorem InitializeIfNeeded_of_fail (o : Nat → Bool) (s : Core)
    (h1 : s.initialized = false) (h2 : o s.init_attempts = false) :
    InitializeIfNeeded o s = (false, { s with init_attempts := s.init_attempts + 1 }) := by
  simp [InitializeIfNeeded, h1, h2]

/-! ## Field-preservation of each operation -/

theorem UpdateAudioTransportWithSenders_sendersOk (s : Core) :
    sendersOk (UpdateAudioTransportWithSenders s) := rfl

theorem UpdateAudioTransportWithSenders_eq_self (s : Core) (h : sendersOk s) :
    UpdateAudioTransportWithSenders s = s := by
  unfold UpdateAudioTransportWithSenders
  rw [← h]

theorem sendersOk_initialCore : sendersOk initialCore := rfl

theorem sendersOk_of_fields (s t : Core)
    (hc : activeSenders t.channels = activeSenders s.channels)
    (ha : t.audio_transport_senders = s.audio_transport_senders)
    (h : sendersOk s) : sendersOk t := by
  unfold sendersOk at h ⊢
  rw [hc, ha, h]

theorem sendersOk_step (o : Nat → Bool) (s : Core) (op : VoipOp) (h : sendersOk s) :
    sendersOk (step o s op) := by
  cases op with
  | create t ssrc =>
    simp only [step, CreateChannel]
    show s.audio_transport_senders = activeSenders (_ :: s.channels)
    rw [activeSenders_cons]
    exact h
  | release id => exact UpdateAudioTransportWithSenders_sendersOk _
  | startSend id =>
    simp only [step, StartSend]
    by_cases hf : (findChannel id s.channels).isSome
    · rw [if_pos hf]
      by_cases hi : (InitializeIfNeeded o s).1
      · rw [if_pos hi]
        exact UpdateAudioTransportWithSenders_sendersOk _
      · rw [if_neg hi]
        show (InitializeIfNeeded o s).2.audio_transport_senders =
          activeSenders (InitializeIfNeeded o s).2.channels
        rw [InitializeIfNeeded_senders, InitializeIfNeeded_channels]
        exact h
    · rw [if_neg hf]; exact h
  | stopSend id =>
    simp only [step, StopSend]
    by_cases hf : (findChannel id s.channels).isSome
    · rw [if_pos hf]
      exact UpdateAudioTransportWithSenders_sendersOk _
    · rw [if_neg hf]; exact h
  | startPlayout id =>
    simp only [step, StartPlayout]
    by_cases hf : (findChannel id s.channels).isSome
    · rw [if_pos hf]
      by_cases hi : (InitializeIfNeeded o s).1
      · rw [if_pos hi]
        simp only [sendersOk]
        rw [activeSenders_mapChannel]
        · rw [InitializeIfNeeded_senders, InitializeIfNeeded_channels]
          exact h
        · exact fun _ => rfl
      · rw [if_neg hi]
        simp only [sendersOk]
        rw [InitializeIfNeeded_senders, InitializeIfNeeded_channels]
        exact h
    · rw [if_neg hf]; exact h
  | stopPlayout id =>
    simp only [step, StopPlayout]
    by_cases hf : (findChannel id s.channels).isSome
    · rw [if_pos hf]
      simp only [sendersOk]
      rw [activeSenders_mapChannel]
      · exact h
      · exact fun _ => rfl
    · rw [if_neg hf]; exact h
  | receivedRTP id pkt =>
    simp only [step, ReceivedRTPPacket, sendersOk]
    rw [activeSenders_mapChannel]
    · exact h
    · exact fun _ => rfl
  | receivedRTCP id pkt =>
    simp only [step, ReceivedRTCPPacket, sendersOk]
    rw [activeSenders_mapChannel]
    · exact h
    · exact fun _ => rfl
  | setSendCodec id pt fmt =>
    simp only [step, SetSendCodec, sendersOk]
    rw [activeSenders_mapChannel]
    · exact h
    · exact fun _ => rfl
  | setReceiveCodecs id specs =>
    simp only [step, SetReceiveCodecs, sendersOk]
    rw [activeSenders_mapChannel]
    · exact h
    · exact fun _ => rfl
  | registerTelephoneEventType id pt rate =>
    simp only [step, RegisterTelephoneEventType, sendersOk]
    rw [activeSenders_mapChannel]
    · exact h
    · exact fun _ => rfl
  | sendDtmfEvent id ev dur =>
    simp only [step, SendDtmfEvent]
    by_cases hf : (findChannel id s.channels).isSome
    · rw [if_pos hf]
      simp only [sendersOk]
      rw [activeSenders_mapChannel]
      · exact h
      · exact fun _ => rfl
    · rw [if_neg hf]; exact h

theorem sendersOk_run (o : Nat → Bool) (s : Core) (ops : List VoipOp) (h : sendersOk s) :
    sendersOk (run o s ops) := by
  induction ops generalizing s with
  | nil => exact h
  | cons op rest ih => exact ih _ (sendersOk_step o s op h)

/-! ## Channel-id allocation lemmas -/

theorem next_channel_id_step_create (o : Nat → Bool) (s : Core) (t : Nat) (ssrc : Option Nat) :
    (step o s (.create t ssrc)).next_channel_id = s.next_channel_id + 1 := rfl

theorem next_channel_id_step_other (o : Nat → Bool) (s : Core) (op : VoipOp)
    (h : ∀ t ssrc, op ≠ .create t ssrc) :
    (step o s op).next_channel_id = s.next_channel_id := by
  cases op with
  | create t ssrc => exact absurd rfl (h t ssrc)
  | release id => rfl
  | startSend id =>
    simp only [step, StartSend]
    by_cases hf : (findChannel id s.channels).isSome
    · rw [if_pos hf]
      by_cases hi : (InitializeIfNeeded o s).1
      · rw [if_pos hi]
        exact InitializeIfNeeded_next o s
      · rw [if_neg hi]
        exact InitializeIfNeeded_next o s
    · rw [if_neg hf]
  | stopSend id =>
    simp only [step, StopSend]
    by_cases hf : (findChannel id s.channels).isSome
    · rw [if_pos hf]; rfl
    · rw [if_neg hf]
  | startPlayout id =>
    simp only [step, StartPlayout]
    by_cases hf : (findChannel id s.channels).isSome
    · rw [if_pos hf]
      by_cases hi : (InitializeIfNeeded o s).1
      · rw [if_pos hi]
        exact InitializeIfNeeded_next o s
      · rw [if_neg hi]
        exact InitializeIfNeeded_next o s
    · rw [if_neg hf]
  | stopPlayout id =>
    simp only [step, StopPlayout]
    by_cases hf : (findChannel id s.channels).isSome
    · rw [if_pos hf]
    · rw [if_neg hf]
  | receivedRTP id pkt => rfl
  | receivedRTCP id pkt => rfl
  | setSendCodec id pt fmt => rfl
  | setReceiveCodecs id specs => rfl
  | registerTelephoneEventType id pt rate => rfl
  | sendDtmfEvent id ev dur =>
    simp only [step, SendDtmfEvent]
    by_cases hf : (findChannel id s.channels).isSome
    · rw [if_pos hf]
    · rw [if_neg hf]

theorem issuedIds_eq_range' (o : Nat → Bool) (ops : List VoipOp) (s : Core) :
    issuedIds o s ops = List.range' s.next_channel_id (numCreates ops) := by
  induction ops generalizing s with
  | nil => rfl
  | cons op rest ih =>
    cases op with
    | create t ssrc =>
      rw [issuedIds, ih, next_channel_id_step_create, numCreates, List.range'_succ]
    | release id =>
      rw [show issuedIds o s (.release id :: rest) = issuedIds o (step o s (.release id)) rest
          from rfl,
        ih, next_channel_id_step_other o s _ (fun t ssrc h => VoipOp.noConfusion h)]
      rfl
    | startSend id =>
      rw [show issuedIds o s (.startSend id :: rest) = issuedIds o (step o s (.startSend id)) rest
          from rfl,
        ih, next_channel_id_step_other o s _ (fun t ssrc h => VoipOp.noConfusion h)]
      rfl
    | stopSend id =>
      rw [show issuedIds o s (.stopSend id :: rest) = issuedIds o (step o s (.stopSend id)) rest
          from rfl,
        ih, next_channel_id_step_other o s _ (fun t ssrc h => VoipOp.noConfusion h)]
      rfl
    | startPlayout id =>
      rw [show issuedIds o s (.startPlayout id :: rest)
            = issuedIds o (step o s (.startPlayout id)) rest from rfl,
        ih,
        next_channel_id_step_other o s (.startPlayout id) (fun t ssrc h => VoipOp.noConfusion h)]
      rfl
    | stopPlayout id =>
      rw [show issuedIds o s (.stopPlayout id :: rest)
            = issuedIds o (step o s (.stopPlayout id)) rest from rfl,
        ih,
        next_channel_id_step_other o s (.stopPlayout id) (fun t ssrc h => VoipOp.noConfusion h)]
      rfl
    | receivedRTP id pkt =>
      rw [show issuedIds o s (.receivedRTP id pkt :: rest)
            = issuedIds o (step o s (.receivedRTP id pkt)) rest from rfl,
        ih,
        next_channel_id_step_other o s (.receivedRTP id pkt) (fun t ssrc h => VoipOp.noConfusion h)]
      rfl
    | receivedRTCP id pkt =>
      rw [show issuedIds o s (.receivedRTCP id pkt :: rest)
            = issuedIds o (step o s (.receivedRTCP id pkt)) rest from rfl,
        ih,
        next_channel_id_step_other o s (.receivedRTCP id pkt) (fun t ssrc h => VoipOp.noConfusion h)]
      rfl
    | setSendCodec id pt fmt =>
      rw [show issuedIds o s (.setSendCodec id pt fmt :: rest)
            = issuedIds o (step o s (.setSendCodec id pt fmt)) rest from rfl,
        ih,
        next_channel_id_step_other o s (.setSendCodec id pt fmt) (fun t ssrc h => VoipOp.noConfusion h)]
      rfl
    | setReceiveCodecs id specs =>
      rw [show issuedIds o s (.setReceiveCodecs id specs :: rest)
            = issuedIds o (step o s (.setReceiveCodecs id specs)) rest from rfl,
        ih,
        next_channel_id_step_other o s (.setReceiveCodecs id specs) (fun t ssrc h => VoipOp.noConfusion h)]
      rfl
    | registerTelephoneEventType id pt rate =>
      rw [show issuedIds o s (.registerTelephoneEventType id pt rate :: rest)
            = issuedIds o (step o s (.registerTelephoneEventType id pt rate)) rest from rfl,
        ih,
        next_channel_id_step_other o s (.registerTelephoneEventType id pt rate) (fun t ssrc h => VoipOp.noConfusion h)]
      rfl
    | sendDtmfEvent id ev dur =>
      rw [show issuedIds o s (.sendDtmfEvent id ev dur :: rest)
            = issuedIds o (step o s (.sendDtmfEvent id ev dur)) rest from rfl,
        ih,
        next_channel_id_step_other o s (.sendDtmfEvent id ev dur) (fun t ssrc h => VoipOp.noConfusion h)]
      rfl

/-! ## Per-operation unfolding lemmas -/

theorem isSome_of_findChannel_some (id : ChannelId) (l : List (ChannelId × ChannelState))
    (ch : ChannelState) (h : findChannel id l = some ch) : (findChannel id l).isSome = true := by
  rw [h]; rfl

theorem StartSend_of_none (o : Nat → Bool) (id : ChannelId) (s : Core)
    (h : findChannel id s.channels = none) : StartSend o id s = (false, s) := by
  simp [StartSend, h]

theorem StartSend_of_initFail (o : Nat → Bool) (id : ChannelId) (s : Core)
    (hf : (findChannel id s.channels).isSome = true)
    (hi : (InitializeIfNeeded o s).1 = false) :
    StartSend o id s = (false, (InitializeIfNeeded o s).2) := by
  simp only [StartSend]
  rw [if_pos hf, if_neg (by rw [hi]; exact Bool.false_ne_true)]

theorem StartSend_of_ok (o : Nat → Bool) (id : ChannelId) (s : Core)
    (hf : (findChannel id s.channels).isSome = true)
    (hi : (InitializeIfNeeded o s).1 = true) :
    StartSend o id s = (true, UpdateAudioTransportWithSenders
      { (InitializeIfNeeded o s).2 with
          channels := mapChannel id (fun ch => { ch with sending := true }) s.channels }) := by
  simp only [StartSend]
  rw [if_pos hf, if_pos hi, InitializeIfNeeded_channels]

theorem StopSend_of_none (id : ChannelId) (s : Core)
    (h : findChannel id s.channels = none) : StopSend id s = (false, s) := by
  simp [StopSend, h]

theorem StopSend_of_some (id : ChannelId) (s : Core)
    (hf : (findChannel id s.channels).isSome = true) :
    StopSend id s = (true, UpdateAudioTransportWithSenders
      { s with channels := mapChannel id (fun ch => { ch with sending := false }) s.channels }) := by
  simp only [StopSend]
  rw [if_pos hf]

theorem StartPlayout_of_none (o : Nat → Bool) (id : ChannelId) (s : Core)
    (h : findChannel id s.channels = none) : StartPlayout o id s = (false, s) := by
  simp [StartPlayout, h]

theorem StartPlayout_of_initFail (o : Nat → Bool) (id : ChannelId) (s : Core)
    (hf : (findChannel id s.channels).isSome = true)
    (hi : (InitializeIfNeeded o s).1 = false) :
    StartPlayout o id s = (false, (InitializeIfNeeded o s).2) := by
  simp only [StartPlayout]
  rw [if_pos hf, if_neg (by rw [hi]; exact Bool.false_ne_true)]

theorem StartPlayout_of_ok (o : Nat → Bool) (id : ChannelId) (s : Core)
    (hf : (findChannel id s.channels).isSome = true)
    (hi : (InitializeIfNeeded o s).1 = true) :
    StartPlayout o id s = (true,
      { (InitializeIfNeeded o s).2 with
          channels := mapChannel id (fun ch => { ch with playing := true }) s.channels }) := by
  simp only [StartPlayout]
  rw [if_pos hf, if_pos hi, InitializeIfNeeded_channels]

theorem StopPlayout_of_none (id : ChannelId) (s : Core)
    (h : findChannel id s.channels = none) : StopPlayout id s = (false, s) := by
  simp [StopPlayout, h]

theorem StopPlayout_of_some (id : ChannelId) (s : Core)
    (hf : (findChannel id s.channels).isSome = true) :
    StopPlayout id s = (true,
      { s with channels := mapChannel id (fun ch => { ch with playing := false }) s.channels }) := by
  simp only [StopPlayout]
  rw [if_pos hf]

theorem SendDtmfEvent_of_none (id : ChannelId) (ev dur : Nat) (s : Core)
    (h : findChannel id s.channels = none) : SendDtmfEvent id ev dur s = (false, s) := by
  simp [SendDtmfEvent, h]

theorem ReceivedRTPPacket_of_none (id : ChannelId) (pkt : List Nat) (s : Core)
    (h : findChannel id s.channels = none) : ReceivedRTPPacket id pkt s = s := by
  simp only [ReceivedRTPPacket]
  rw [mapChannel_eq_self_of_none _ _ _ h]

theorem ReceivedRTCPPacket_of_none (id : ChannelId) (pkt : List Nat) (s : Core)
    (h : findChannel id s.channels = none) : ReceivedRTCPPacket id pkt s = s := by
  simp only [ReceivedRTCPPacket]
  rw [mapChannel_eq_self_of_none _ _ _ h]

theorem SetSendCodec_of_none (id : ChannelId) (pt fmt : Nat) (s : Core)
    (h : findChannel id s.channels = none) : SetSendCodec id pt fmt s = s := by
  simp only [SetSendCodec]
  rw [mapChannel_eq_self_of_none _ _ _ h]

theorem SetReceiveCodecs_of_none (id : ChannelId) (specs : List (Nat × Nat)) (s : Core)
    (h : findChannel id s.channels = none) : SetReceiveCodecs id specs s = s := by
  simp only [SetReceiveCodecs]
  rw [mapChannel_eq_self_of_none _ _ _ h]

theorem RegisterTelephoneEventType_of_none (id : ChannelId) (pt rate : Nat) (s : Core)
    (h : findChannel id s.channels = none) : RegisterTelephoneEventType id pt rate s = s := by
  simp only [RegisterTelephoneEventType]
  rw [mapChannel_eq_self_of_none _ _ _ h]

theorem GetIngressStatistics_of_none (id : ChannelId) (s : Core)
    (h : findChannel id s.channels = none) : GetIngressStatistics id s = none := by
  simp [GetIngressStatistics, h]

theorem GetChannel_ReleaseChannel (id : ChannelId) (s : Core) :
    GetChannel id (ReleaseChannel id s) = none := by
  show findChannel id (removeChannel id s.channels) = none
  exact findChannel_removeChannel id s.channels

theorem ReleaseChannel_of_none (id : ChannelId) (s : Core)
    (h : findChannel id s.channels = none) (hs : sendersOk s) : ReleaseChannel id s = s := by
  unfold ReleaseChannel
  rw [removeChannel_eq_self _ _ h]
  exact UpdateAudioTransportWithSenders_eq_self s hs

theorem set_sending_eq_self (ch : ChannelState) (b : Bool) (h : ch.sending = b) :
    { ch with sending := b } = ch := by
  cases ch
  cases h
  rfl

theorem set_playing_eq_self (ch : ChannelState) (b : Bool) (h : ch.playing = b) :
    { ch with playing := b } = ch := by
  cases ch
  cases h
  rfl

theorem sending_true_of_mem_mapChannel (id : ChannelId) (l : List (ChannelId × ChannelState))
    (p : ChannelId × ChannelState)
    (hp : p ∈ mapChannel id (fun c => { c with sending := true }) l) (hid : p.1 = id) :
    p.2.sending = true := by
  rcases List.mem_map.mp hp with ⟨q, hq, hgq⟩
  by_cases hqid : q.1 = id
  · rw [← hgq]
    simp [hqid]
  · rw [← hgq] at hid
    rw [if_neg hqid] at hid
    exact absurd hid hqid

theorem StartSend_of_already (o : Nat → Bool) (id : ChannelId) (s : Core)
    (hini : s.initialized = true) (hsOk : sendersOk s)
    (hf : (findChannel id s.channels).isSome = true)
    (hsend : ∀ p ∈ s.channels, p.1 = id → p.2.sending = true) :
    StartSend o id s = (true, s) := by
  have hmap : mapChannel id (fun c => { c with sending := true }) s.channels = s.channels :=
    mapChannel_eq_self_of_fixed _ _ _
      (fun p hp hpid => set_sending_eq_self _ _ (hsend p hp hpid))
  rw [StartSend_of_ok o id s hf (by rw [InitializeIfNeeded_of_initialized o s hini]),
    InitializeIfNeeded_of_initialized o s hini, hmap]
  rw [show ({ ((true, s) : Bool × Core).2 with channels := s.channels } : Core) = s from rfl,
    UpdateAudioTransportWithSenders_eq_self s hsOk]

/-! ## Claims -/

/-- C1: along every sequence of caller operations, the ids handed out by
`CreateChannel` are exactly `0, 1, 2, …` in order — allocated strictly
increasing starting at 0, all distinct, and never reused after a release; in
particular create, release id 0, create issues `[0, 1]`, not 0 twice. -/
theorem channel_ids_never_reused (o : Nat → Bool) (ops : List VoipOp) :
    issuedIds o initialCore ops = List.range (numCreates ops)
    ∧ List.Pairwise (· < ·) (issuedIds o initialCore ops)
    ∧ issuedIds admAlwaysUp initialCore
        [.create 7 none, .release 0, .create 9 (some 5)] = [0, 1] := by
  refine ⟨?_, ?_, rfl⟩
  · rw [issuedIds_eq_range']
    exact (List.range_eq_range' _).symm
  · rw [issuedIds_eq_range']
    exact List.pairwise_lt_range' _ _

/-- C2: after every trace of operations (so in particular after every
`StartSend`, `StopSend` or `ReleaseChannel` transition) the set pushed to the
audio-transport adapter equals exactly the recomputed set of channels
currently in the sending state, every pushed id is present in the registry,
and the scenario create A, create B, start-send A, start-send B, stop-send A
leaves exactly `{B}` pushed. -/
theorem active_senders_exact (o : Nat → Bool) (ops : List VoipOp) :
    (run o initialCore ops).audio_transport_senders
        = activeSenders (run o initialCore ops).channels
    ∧ (∀ id, id ∈ (run o initialCore ops).audio_transport_senders →
        (findChannel id (run o initialCore ops).channels).isSome = true)
    ∧ (run admAlwaysUp initialCore
        [.create 0 none, .create 0 none, .startSend 0, .startSend 1,
         .stopSend 0]).audio_transport_senders = [1] := by
  have hs := sendersOk_run o initialCore ops sendersOk_initialCore
  refine ⟨hs, ?_, rfl⟩
  intro id hm
  rw [hs] at hm
  exact findChannel_isSome_of_mem_activeSenders _ _ hm

/-- Witness for C2 on a concrete trace: the single pushed sender is present
in the registry. -/
theorem active_senders_exact_witness :
    (findChannel 0 (run admAlwaysUp initialCore
        [.create 0 none, .startSend 0]).channels).isSome = true :=
  (active_senders_exact admAlwaysUp [.create 0 none, .startSend 0]).2.1 0 (by decide)

/-- C8: in the destructor of `VoipCore`, the channel registry (`channels_`)
and the background worker (`process_thread_`) are destroyed strictly before
the hardware device module (`audio_device_module_`), which is destroyed
strictly before the audio transport adapter, the mixer and the audio
processing pipeline — so those three outlive the device module, and the
device module outlives the registry and the worker. -/
theorem destruction_order_correct :
    destroyedBefore .channels_member .audio_device_module
    ∧ destroyedBefore .process_thread .audio_device_module
    ∧ destroyedBefore .audio_device_module .audio_transport
    ∧ destroyedBefore .audio_device_module .audio_mixer
    ∧ destroyedBefore .audio_device_module .audio_processing := by
  decide

/-- C10: the capability accessors `Base`, `Network`, `Codec`, `Dtmf` and
`Statistics` all return the very same underlying `VoipCore` object
(`return *this`), so a channel created through the `Base` view is
immediately visible through the `Network` view. -/
theorem capability_views_share_state (s : Core) (t : Nat) (ssrc : Option Nat) :
    Base s = s ∧ Network s = s ∧ Codec s = s ∧ Dtmf s = s ∧ Statistics s = s
    ∧ GetChannel s.next_channel_id (Network (CreateChannel t ssrc (Base s)).2)
        = some { transport := t, local_ssrc := ssrc } := by
  refine ⟨rfl, rfl, rfl, rfl, rfl, ?_⟩
  show findChannel s.next_channel_id
    ((s.next_channel_id, ({ transport := t, local_ssrc := ssrc } : ChannelState)) :: s.channels)
      = _
  rw [findChannel, if_pos rfl]

/-- C4: `InitializeIfNeeded` returns true immediately, with no new hardware
attempt and no state change, when the initialized flag is already set; when
the attempt fails it returns false, leaves the flag false and only records
the attempt, and a later call makes a fresh attempt (the attempt counter
advances again). -/
theorem initialize_idempotent_and_retryable (o : Nat → Bool) (s : Core) :
    (s.initialized = true → InitializeIfNeeded o s = (true, s))
    ∧ (s.initialized = false → o s.init_attempts = false →
        InitializeIfNeeded o s = (false, { s with init_attempts := s.init_attempts + 1 })
        ∧ (InitializeIfNeeded o ((InitializeIfNeeded o s).2)).2.init_attempts
            = s.init_attempts + 2) := by
  refine ⟨InitializeIfNeeded_of_initialized o s, fun h1 h2 =>
    ⟨InitializeIfNeeded_of_fail o s h1 h2, ?_⟩⟩
  rw [InitializeIfNeeded_of_fail o s h1 h2]
  by_cases h3 : o (s.init_attempts + 1) <;>
    simp [InitializeIfNeeded, h1, h3]

/-- Witness for C4 at concrete states: an already-initialized core is left
untouched, and with always-failing hardware the first call fails retryably
and a second call makes a second attempt. -/
theorem initialize_idempotent_and_retryable_witness :
    InitializeIfNeeded admAlwaysUp { initialCore with initialized := true }
        = (true, { initialCore with initialized := true })
    ∧ (InitializeIfNeeded admAlwaysDown initialCore
          = (false, { initialCore with init_attempts := initialCore.init_attempts + 1 })
        ∧ (InitializeIfNeeded admAlwaysDown
            ((InitializeIfNeeded admAlwaysDown initialCore).2)).2.init_attempts
          = initialCore.init_attempts + 2) :=
  ⟨(initialize_idempotent_and_retryable admAlwaysUp _).1 rfl,
   (initialize_idempotent_and_retryable admAlwaysDown initialCore).2 rfl rfl⟩

/-- C5: on a registered channel, when the initialized flag is down and the
hardware attempt fails, `StartSend` and `StartPlayout` return false and
change nothing but the attempt count — registry, both axes and the pushed
active-senders set are untouched; and whenever either call returns true the
hardware is initialized. -/
theorem start_requires_initialization (o : Nat → Bool) (id : ChannelId) (s : Core)
    (ch : ChannelState) :
    (findChannel id s.channels = some ch → s.initialized = false →
      o s.init_attempts = false →
      StartSend o id s = (false, { s with init_attempts := s.init_attempts + 1 })
      ∧ StartPlayout o id s = (false, { s with init_attempts := s.init_attempts + 1 }))
    ∧ ((StartSend o id s).1 = true → (StartSend o id s).2.initialized = true)
    ∧ ((StartPlayout o id s).1 = true → (StartPlayout o id s).2.initialized = true) := by
  refine ⟨fun hc h1 h2 => ?_, fun h => ?_, fun h => ?_⟩
  · have hf := isSome_of_findChannel_some id s.channels ch hc
    have hfail := InitializeIfNeeded_of_fail o s h1 h2
    have hi : (InitializeIfNeeded o s).1 = false := by rw [hfail]
    rw [StartSend_of_initFail o id s hf hi, StartPlayout_of_initFail o id s hf hi, hfail]
    exact ⟨rfl, rfl⟩
  · cases hfc : findChannel id s.channels with
    | none =>
      rw [StartSend_of_none o id s hfc] at h
      exact Bool.noConfusion h
    | some c =>
      have hf := isSome_of_findChannel_some id s.channels c hfc
      cases hi : (InitializeIfNeeded o s).1 with
      | false =>
        rw [StartSend_of_initFail o id s hf hi] at h
        exact Bool.noConfusion h
      | true =>
        rw [StartSend_of_ok o id s hf hi]
        exact InitializeIfNeeded_initialized_of_true o s hi
  · cases hfc : findChannel id s.channels with
    | none =>
      rw [StartPlayout_of_none o id s hfc] at h
      exact Bool.noConfusion h
    | some c =>
      have hf := isSome_of_findChannel_some id s.channels c hfc
      cases hi : (InitializeIfNeeded o s).1 with
      | false =>
        rw [StartPlayout_of_initFail o id s hf hi] at h
        exact Bool.noConfusion h
      | true =>
        rw [StartPlayout_of_ok o id s hf hi]
        exact InitializeIfNeeded_initialized_of_true o s hi

/-- Witness for C5: one channel, hardware always failing — start-send and
start-playout fail leaving only the attempt count changed; with working
hardware, a successful start-send leaves the core initialized. -/
theorem start_requires_initialization_witness :
    (StartSend admAlwaysDown 0 (CreateChannel 3 none initialCore).2
        = (false, { (CreateChannel 3 none initialCore).2 with
            init_attempts := (CreateChannel 3 none initialCore).2.init_attempts + 1 })
      ∧ StartPlayout admAlwaysDown 0 (CreateChannel 3 none initialCore).2
        = (false, { (CreateChannel 3 none initialCore).2 with
            init_attempts := (CreateChannel 3 none initialCore).2.init_attempts + 1 }))
    ∧ (StartSend admAlwaysUp 0 (CreateChannel 3 none initialCore).2).2.initialized = true :=
  ⟨(start_requires_initialization admAlwaysDown 0 (CreateChannel 3 none initialCore).2
      { transport := 3, local_ssrc := none }).1 rfl rfl rfl,
   (start_requires_initialization admAlwaysUp 0 (CreateChannel 3 none initialCore).2
      { transport := 3, local_ssrc := none }).2.1 (by decide)⟩

/-- C7: double-start, double-stop and double-release are idempotent no-op
successes: a second `StartSend` after a successful one returns true and
changes nothing; `StopSend` on a channel whose sending axis is already off
returns true and changes nothing; `StopPlayout` on a channel whose playing
axis is already off returns true and changes nothing; `ReleaseChannel` on an
absent id changes nothing. -/
theorem idempotent_no_ops (o : Nat → Bool) (id : ChannelId) (s : Core) (ch : ChannelState) :
    ((StartSend o id s).1 = true →
        StartSend o id (StartSend o id s).2 = (true, (StartSend o id s).2))
    ∧ (findChannel id s.channels = some ch →
        (∀ p ∈ s.channels, p.1 = id → p.2.sending = false) → sendersOk s →
        StopSend id s = (true, s))
    ∧ (findChannel id s.channels = some ch →
        (∀ p ∈ s.channels, p.1 = id → p.2.playing = false) →
        StopPlayout id s = (true, s))
    ∧ (findChannel id s.channels = none → sendersOk s → ReleaseChannel id s = s) := by
  refine ⟨fun h => ?_, fun hc hall hsOk => ?_, fun hc hall => ?_,
    fun hnone hsOk => ReleaseChannel_of_none id s hnone hsOk⟩
  · cases hfc : findChannel id s.channels with
    | none =>
      rw [StartSend_of_none o id s hfc] at h
      exact Bool.noConfusion h
    | some c =>
      have hf := isSome_of_findChannel_some id s.channels c hfc
      cases hi : (InitializeIfNeeded o s).1 with
      | false =>
        rw [StartSend_of_initFail o id s hf hi] at h
        exact Bool.noConfusion h
      | true =>
        rw [StartSend_of_ok o id s hf hi]
        refine StartSend_of_already o id _ ?_ ?_ ?_ ?_
        · exact InitializeIfNeeded_initialized_of_true o s hi
        · exact UpdateAudioTransportWithSenders_sendersOk _
        · show (findChannel id
            (mapChannel id (fun c => { c with sending := true }) s.channels)).isSome = true
          rw [findChannel_mapChannel, hfc]
          rfl
        · intro p hp hpid
          exact sending_true_of_mem_mapChannel id s.channels p hp hpid
  · have hf := isSome_of_findChannel_some id s.channels ch hc
    have hmap : mapChannel id (fun c => { c with sending := false }) s.channels = s.channels :=
      mapChannel_eq_self_of_fixed _ _ _
        (fun p hp hpid => set_sending_eq_self _ _ (hall p hp hpid))
    rw [StopSend_of_some id s hf, hmap,
      show ({ s with channels := s.channels } : Core) = s from rfl,
      UpdateAudioTransportWithSenders_eq_self s hsOk]
  · have hf := isSome_of_findChannel_some id s.channels ch hc
    have hmap : mapChannel id (fun c => { c with playing := false }) s.channels = s.channels :=
      mapChannel_eq_self_of_fixed _ _ _
        (fun p hp hpid => set_playing_eq_self _ _ (hall p hp hpid))
    rw [StopPlayout_of_some id s hf, hmap]

/-- Witness for C7 at a one-channel core: start-send twice equals once,
stop-send and stop-playout on never-started axes are silent successes, and
releasing an absent id is a no-op. -/
theorem idempotent_no_ops_witness :
    StartSend admAlwaysUp 0 (StartSend admAlwaysUp 0 (CreateChannel 2 none initialCore).2).2
        = (true, (StartSend admAlwaysUp 0 (CreateChannel 2 none initialCore).2).2)
    ∧ StopSend 0 (CreateChannel 2 none initialCore).2
        = (true, (CreateChannel 2 none initialCore).2)
    ∧ StopPlayout 0 (CreateChannel 2 none initialCore).2
        = (true, (CreateChannel 2 none initialCore).2)
    ∧ ReleaseChannel 9 (CreateChannel 2 none initialCore).2
        = (CreateChannel 2 none initialCore).2 :=
  ⟨(idempotent_no_ops admAlwaysUp 0 (CreateChannel 2 none initialCore).2
      { transport := 2, local_ssrc := none }).1 (by decide),
   (idempotent_no_ops admAlwaysUp 0 (CreateChannel 2 none initialCore).2
      { transport := 2, local_ssrc := none }).2.1 rfl (by decide) rfl,
   (idempotent_no_ops admAlwaysUp 0 (CreateChannel 2 none initialCore).2
      { transport := 2, local_ssrc := none }).2.2.1 rfl (by decide),
   (idempotent_no_ops admAlwaysUp 9 (CreateChannel 2 none initialCore).2
      { transport := 2, local_ssrc := none }).2.2.2 rfl rfl⟩

/-- C6 counterexample: `ReceivedRTPPacket` is a routing operation keyed by
`ChannelId` whose declared return type is `void` (`voip_core.h` lines
84-85), so it cannot report NotFound or any failure to its caller,
contradicting the claim that every routing call on a released id returns
NotFound. -/
theorem received_rtp_reports_nothing : ¬ reportsToCaller ApiOp.receivedRTPPacket :=
  fun h => h rfl

/-- C6 (amended): after `ReleaseChannel(id)` (or on any unknown id), lookup
returns not-found; operations with a result type report false/none; the
void routing operations are crash-free silent no-ops; and none of them has
any side effect on the registry or on the active-senders set. -/
theorem release_then_not_found (o : Nat → Bool) (id : ChannelId) (s : Core)
    (pkt : List Nat) (pt fmt rate ev dur : Nat) (specs : List (Nat × Nat)) :
    GetChannel id (ReleaseChannel id s) = none
    ∧ StartPlayout o id (ReleaseChannel id s) = (false, ReleaseChannel id s)
    ∧ (findChannel id s.channels = none →
        StartSend o id s = (false, s)
        ∧ StopSend id s = (false, s)
        ∧ StartPlayout o id s = (false, s)
        ∧ StopPlayout id s = (false, s)
        ∧ SendDtmfEvent id ev dur s = (false, s)
        ∧ GetIngressStatistics id s = none
        ∧ ReceivedRTPPacket id pkt s = s
        ∧ ReceivedRTCPPacket id pkt s = s
        ∧ SetSendCodec id pt fmt s = s
        ∧ SetReceiveCodecs id specs s = s
        ∧ RegisterTelephoneEventType id pt rate s = s) :=
  ⟨GetChannel_ReleaseChannel id s,
   StartPlayout_of_none o id _ (GetChannel_ReleaseChannel id s),
   fun h =>
    ⟨StartSend_of_none o id s h, StopSend_of_none id s h, StartPlayout_of_none o id s h,
     StopPlayout_of_none id s h, SendDtmfEvent_of_none id ev dur s h,
     GetIngressStatistics_of_none id s h, ReceivedRTPPacket_of_none id pkt s h,
     ReceivedRTCPPacket_of_none id pkt s h, SetSendCodec_of_none id pt fmt s h,
     SetReceiveCodecs_of_none id specs s h, RegisterTelephoneEventType_of_none id pt rate s h⟩⟩

/-- Witness for the amended C6 on the empty core and id 5. -/
theorem release_then_not_found_witness :
    GetChannel 5 (ReleaseChannel 5 initialCore) = none
    ∧ StartSend admAlwaysUp 5 initialCore = (false, initialCore)
    ∧ ReceivedRTPPacket 5 [1, 2, 3] initialCore = initialCore :=
  ⟨(release_then_not_found admAlwaysUp 5 initialCore [1, 2, 3] 0 0 0 0 0 []).1,
   ((release_then_not_found admAlwaysUp 5 initialCore [1, 2, 3] 0 0 0 0 0 []).2.2 rfl).1,
   ((release_then_not_found admAlwaysUp 5 initialCore [1, 2, 3] 0 0 0 0 0 []).2.2 rfl).2.2.2.2.2.2.1⟩

/-- C9 counterexample: `ReleaseChannel` is declared `void` (`voip_core.h`
line 77), so it gives the caller no explicit indication when the id is
unknown, contradicting the claim that it does. -/
theorem release_channel_reports_nothing : ¬ reportsToCaller ApiOp.releaseChannel :=
  fun h => h rfl

/-- C9 (amended): the operations with a declared result type — create,
start/stop send, start/stop playout, send-dtmf-event, get-ingress-statistics
— report an explicit result or failure; release-channel, the packet-receive
operations, the codec setters and the telephone-event registration are
declared `void`, give the caller no indication, and on an unknown id are
silent no-ops with no side effect. -/
theorem caller_facing_indications (id : ChannelId) (s : Core) (pkt : List Nat)
    (pt fmt rate : Nat) (specs : List (Nat × Nat)) :
    (reportsToCaller .createChannel ∧ reportsToCaller .startSend
      ∧ reportsToCaller .stopSend ∧ reportsToCaller .startPlayout
      ∧ reportsToCaller .stopPlayout ∧ reportsToCaller .sendDtmfEvent
      ∧ reportsToCaller .getIngressStatistics)
    ∧ (returnKind .releaseChannel = .voidKind
      ∧ returnKind .receivedRTPPacket = .voidKind
      ∧ returnKind .receivedRTCPPacket = .voidKind
      ∧ returnKind .setSendCodec = .voidKind
      ∧ returnKind .setReceiveCodecs = .voidKind
      ∧ returnKind .registerTelephoneEventType = .voidKind)
    ∧ (findChannel id s.channels = none → sendersOk s →
        ReleaseChannel id s = s
        ∧ ReceivedRTPPacket id pkt s = s
        ∧ ReceivedRTCPPacket id pkt s = s
        ∧ SetSendCodec id pt fmt s = s
        ∧ SetReceiveCodecs id specs s = s
        ∧ RegisterTelephoneEventType id pt rate s = s) :=
  ⟨⟨fun h => RetKind.noConfusion h, fun h => RetKind.noConfusion h,
    fun h => RetKind.noConfusion h, fun h => RetKind.noConfusion h,
    fun h => RetKind.noConfusion h, fun h => RetKind.noConfusion h,
    fun h => RetKind.noConfusion h⟩,
   ⟨rfl, rfl, rfl, rfl, rfl, rfl⟩,
   fun h hs =>
    ⟨ReleaseChannel_of_none id s h hs, ReceivedRTPPacket_of_none id pkt s h,
     ReceivedRTCPPacket_of_none id pkt s h, SetSendCodec_of_none id pt fmt s h,
     SetReceiveCodecs_of_none id specs s h, RegisterTelephoneEventType_of_none id pt rate s h⟩⟩

/-- Witness for the amended C9 on the empty core and id 3. -/
theorem caller_facing_indications_witness :
    reportsToCaller ApiOp.createChannel
    ∧ ReleaseChannel 3 initialCore = initialCore
    ∧ SetSendCodec 3 111 42 initialCore = initialCore :=
  ⟨(caller_facing_indications 3 initialCore [] 0 0 0 []).1.1,
   ((caller_facing_indications 3 initialCore [] 0 0 0 []).2.2 rfl rfl).1,
   ((caller_facing_indications 3 initialCore [] 111 42 0 []).2.2 rfl rfl).2.2.2.1⟩

end VoipCore
